import Mathlib

/-!
Verification of the asynchronous priority job queue of
`estacao-mapa-worker` (src/queue.js, src/retry.js).

The Redis-backed Task Store is shallowly embedded: the sorted set
`queue:formatacao` becomes a list of (score, member) pairs, the
`task:{id}` string keys become an association list carrying each
value together with its absolute expiration time, and every queue
operation becomes a pure function taking the client availability,
the current time `Date.now()` and the store state explicitly.
-/

namespace EstacaoMapa

/-- A formatting task, as built by `enqueueFormatacao`
(src/queue.js lines 49-60): caller-supplied id and payload fields,
`priority` (default 5), `createdAt = Date.now()`, `attempts = 0`,
`maxAttempts = 3`. Timestamps are epoch milliseconds, modelled as `Nat`. -/
structure Task where
  id : String
  type : String
  documentoId : String
  estruturaJson : String
  dadosBasicos : String
  normaFormatacao : String
  priority : Nat
  createdAt : Nat
  attempts : Nat
  maxAttempts : Nat
deriving DecidableEq, Repr

/-- A status record stored under key `task:{id}`.  The source stores
differently-shaped JSON objects per operation (`{status, createdAt}` at
enqueue, `{status, startedAt}` at dequeue, `{status, result, error,
completedAt}` at saveTaskResult), modelled here with optional fields. -/
structure TaskStatus where
  status : String
  createdAt : Option Nat := none
  startedAt : Option Nat := none
  completedAt : Option Nat := none
  result : Option String := none
  error : Option String := none
deriving DecidableEq, Repr

/-- The shared Redis state: the sorted set `queue:formatacao` as a list of
(score, member) pairs, and the string keyspace `task:{id}` as an
association list of (key, value, absolute expiration time in ms). -/
structure RedisState where
  queue : List (Nat × Task)
  tasks : List (String × TaskStatus × Nat)
deriving DecidableEq, Repr

/-- `ZADD`: inserts the member at the given score, or updates its score if
the member is already present (Redis sorted-set semantics). -/
def zadd (q : List (Nat × Task)) (score : Nat) (t : Task) : List (Nat × Task) :=
  if q.any (fun p => p.2 = t) then
    q.map (fun p => if p.2 = t then (score, t) else p)
  else
    q ++ [(score, t)]

/-- `ZRANGE 0 0`: the entry with the least score, if any.  (Redis breaks
score ties lexicographically on the serialized member; no theorem below
depends on the tie order, every dequeue statement assumes strict scores.) -/
def zmin : List (Nat × Task) → Option (Nat × Task)
  | [] => none
  | p :: rest =>
    match zmin rest with
    | none => some p
    | some q => if p.1 ≤ q.1 then some p else some q

/-- `ZREM`: removes the member; removing an absent member is a no-op. -/
def zrem (q : List (Nat × Task)) (t : Task) : List (Nat × Task) :=
  q.filter (fun p => p.2 ≠ t)

/-- `SET key value EX ex` at time `now`: overwrites the key, giving it the
absolute expiration time `now + ex * 1000` (EX is in seconds, time in ms). -/
def setKey (m : List (String × TaskStatus × Nat)) (k : String) (v : TaskStatus)
    (ex now : Nat) : List (String × TaskStatus × Nat) :=
  (k, v, now + ex * 1000) :: m.filter (fun p => p.1 ≠ k)

/-- `GET key` at time `now`: the stored value, or `none` if the key is
absent or its expiration time has passed. -/
def redisGet (m : List (String × TaskStatus × Nat)) (k : String) (now : Nat) :
    Option TaskStatus :=
  match m.find? (fun p => p.1 = k) with
  | none => none
  | some (_, v, expiresAt) => if now < expiresAt then some v else none

/-- The ordering score computed by `enqueueFormatacao` (src/queue.js
line 62): `score = priority * 1000000 + Date.now()`. -/
def formatacaoScore (priority now : Nat) : Nat :=
  priority * 1000000 + now

/-- `enqueueFormatacao` (src/queue.js lines 42-75).  Throws
`'Redis não disponível'` when the client is unavailable; otherwise builds
the task, `ZADD`s it at `priority * 1000000 + Date.now()`, writes a
`queued` status record with `EX 3600`, and returns the job id. -/
def enqueueFormatacao (hasClient : Bool) (jobId documentoId estruturaJson
    dadosBasicos normaFormatacao : String) (priority : Nat) (now : Nat)
    (st : RedisState) : Except String (String × RedisState) :=
  if !hasClient then
    .error "Redis não disponível"
  else
    let task : Task :=
      { id := jobId, type := "formatacao", documentoId, estruturaJson,
        dadosBasicos, normaFormatacao, priority, createdAt := now,
        attempts := 0, maxAttempts := 3 }
    let score := formatacaoScore priority now
    let record : TaskStatus := { status := "queued", createdAt := some now }
    let st₁ : RedisState := { st with queue := zadd st.queue score task }
    let st₂ : RedisState :=
      { st₁ with tasks := setKey st₁.tasks ("task:" ++ jobId) record 3600 now }
    .ok (jobId, st₂)

/-- `dequeueFormatacao` (src/queue.js lines 80-107).  Returns `null` when
the client is unavailable; reads the least-score member with
`ZRANGE 0 0`, returns `null` if the queue is empty, otherwise `ZREM`s
that member, writes a `processing` status record with `EX 3600`, and
returns the task. -/
def dequeueFormatacao (hasClient : Bool) (now : Nat) (st : RedisState) :
    Option Task × RedisState :=
  if !hasClient then
    (none, st)
  else
    match zmin st.queue with
    | none => (none, st)
    | some (_, task) =>
      let record : TaskStatus := { status := "processing", startedAt := some now }
      let st₁ : RedisState := { st with queue := zrem st.queue task }
      let st₂ : RedisState :=
        { st₁ with tasks := setKey st₁.tasks ("task:" ++ task.id) record 3600 now }
      (some task, st₂)

/-- `saveTaskResult` (src/queue.js lines 112-127).  Silently returns when
the client is unavailable; otherwise overwrites the task's status record
with `{status, result, error, completedAt}` and `EX 3600`. -/
def saveTaskResult (hasClient : Bool) (taskId status : String)
    (result err : Option String) (now : Nat) (st : RedisState) : RedisState :=
  if !hasClient then
    st
  else
    let record : TaskStatus :=
      { status, result, error := err, completedAt := some now }
    { st with tasks := setKey st.tasks ("task:" ++ taskId) record 3600 now }

/-- `requeueFormatacao` (src/queue.js lines 132-155).  Throws
`'Redis não disponível'` when the client is unavailable; increments
`task.attempts`; if `attempts >= maxAttempts`, records a terminal
`failed` status with error `'Máximo de tentativas excedido'` and returns
`false`; otherwise reinserts the task at the degraded score
`(priority + attempts) * 1000000 + Date.now()` and returns `true`. -/
def requeueFormatacao (hasClient : Bool) (task : Task) (now : Nat)
    (st : RedisState) : Except String (Bool × RedisState) :=
  if !hasClient then
    .error "Redis não disponível"
  else
    let task₁ : Task := { task with attempts := task.attempts + 1 }
    if task₁.maxAttempts ≤ task₁.attempts then
      .ok (false, saveTaskResult hasClient task₁.id "failed" none
        (some "Máximo de tentativas excedido") now st)
    else
      let score := (task₁.priority + task₁.attempts) * 1000000 + now
      .ok (true, { st with queue := zadd st.queue score task₁ })

/-- `getTaskStatus` (src/queue.js lines 160-174).  Returns
`{status: 'unknown'}` when the client is unavailable, the synthetic
`{status: 'not_found'}` when the key is absent or expired, and the stored
record otherwise.  It never throws. -/
def getTaskStatus (hasClient : Bool) (taskId : String) (now : Nat)
    (st : RedisState) : TaskStatus :=
  if !hasClient then
    { status := "unknown" }
  else
    match redisGet st.tasks ("task:" ++ taskId) now with
    | none => { status := "not_found" }
    | some v => v

/-- `getQueueSize` (src/queue.js lines 179-187).  Returns `0` when the
client is unavailable, else `ZCARD queue:formatacao`. -/
def getQueueSize (hasClient : Bool) (st : RedisState) : Nat :=
  if !hasClient then 0 else st.queue.length

/-- The read phase of `dequeueFormatacao` (src/queue.js line 87): the
`await client.zrange('queue:formatacao', 0, 0)` call, which reads the
least-score member without modifying the store. -/
def dequeueReadPhase (st : RedisState) : Option Task :=
  (zmin st.queue).map Prod.snd

/-- The completion phase of `dequeueFormatacao` (src/queue.js lines
94-98): `ZREM` the previously read member, then write the `processing`
status record.  Runs after the read phase's `await` boundary. -/
def dequeueFinishPhase (task : Task) (now : Nat) (st : RedisState) : RedisState :=
  let record : TaskStatus := { status := "processing", startedAt := some now }
  let st₁ : RedisState := { st with queue := zrem st.queue task }
  { st₁ with tasks := setKey st₁.tasks ("task:" ++ task.id) record 3600 now }

/-- Two concurrent `dequeueFormatacao` callers interleaved at the `await`
boundary between `zrange` (line 87) and `zrem` (line 94): both callers
perform their read phase before either performs its removal phase — a
schedule the source permits, since each Redis call is a separate
`await`ed request and nothing locks the queue in between. -/
def dequeueRace (now : Nat) (st : RedisState) :
    Option Task × Option Task × RedisState :=
  let r₁ := dequeueReadPhase st
  let r₂ := dequeueReadPhase st
  match r₁, r₂ with
  | some t₁, some t₂ =>
    let st₁ := dequeueFinishPhase t₁ now st
    let st₂ := dequeueFinishPhase t₂ now st₁
    (some t₁, some t₂, st₂)
  | some t₁, none => (some t₁, none, dequeueFinishPhase t₁ now st)
  | none, some t₂ => (none, some t₂, dequeueFinishPhase t₂ now st)
  | none, none => (none, none, st)

/-- One attempt outcome trace of `executeWithRetry` (src/retry.js lines
13-42): the overall outcome (`.error none` models throwing the
`undefined` initial `lastError`, reachable only when `maxRetries = 0`),
the number of invocations of `fn`, and the list of waits performed, in
order. -/
structure RetryTrace (E A : Type) where
  outcome : Except (Option E) A
  calls : Nat
  delays : List Nat
deriving Repr

/-- The retry loop of `executeWithRetry`, with the outcome of the k-th
invocation of `fn` given by `fn k` (1-indexed).  `attempt` is the current
attempt number, `remaining` the attempts left (`maxRetries - attempt + 1`),
`lastError` the last captured error.  On failure it waits
`delayMs * attempt` — but only when `attempt < maxRetries`, i.e. when at
least one further attempt remains. -/
def retryGo {E A : Type} (fn : Nat → Except E A) (delayMs : Nat) :
    Nat → Nat → Option E → RetryTrace E A
  | _, 0, lastError => ⟨.error lastError, 0, []⟩
  | attempt, remaining + 1, _ =>
    match fn attempt with
    | .ok a => ⟨.ok a, 1, []⟩
    | .error e =>
      let rest := retryGo fn delayMs (attempt + 1) remaining (some e)
      if remaining = 0 then
        ⟨rest.outcome, rest.calls + 1, rest.delays⟩
      else
        ⟨rest.outcome, rest.calls + 1, delayMs * attempt :: rest.delays⟩

/-- `executeWithRetry` (src/retry.js lines 13-42), as a trace over the
per-attempt outcomes `fn`: attempts `fn` for `attempt = 1 .. maxRetries`,
returning the first success; after a failed attempt that is not the last,
waits `delayMs * attempt`; if every attempt fails, throws the last
captured error. -/
def executeWithRetry {E A : Type} (fn : Nat → Except E A)
    (maxRetries : Nat := 3) (delayMs : Nat := 2000) : RetryTrace E A :=
  retryGo fn delayMs 1 maxRetries none


/-- A concrete sample task used in the closed instances below. -/
def sampleTask (id : String) (priority createdAt attempts maxAttempts : Nat) : Task :=
  { id, type := "formatacao", documentoId := "doc-1", estruturaJson := "estrutura",
    dadosBasicos := "dados", normaFormatacao := "abnt", priority, createdAt,
    attempts, maxAttempts }

lemma zadd_self_mem (q : List (Nat × Task)) (s : Nat) (t : Task) :
    (s, t) ∈ zadd q s t := by
  unfold zadd
  split
  · rename_i h
    rw [List.any_eq_true] at h
    obtain ⟨p, hp, hpt⟩ := h
    rw [decide_eq_true_eq] at hpt
    exact List.mem_map.2 ⟨p, hp, by simp [hpt]⟩
  · exact List.mem_append_right _ (List.mem_singleton.2 rfl)

lemma zmin_pair₁ {s₁ s₂ : Nat} (t₁ t₂ : Task) (h : s₁ ≤ s₂) :
    zmin [(s₁, t₁), (s₂, t₂)] = some (s₁, t₁) := by
  simp [zmin, h]

lemma zmin_pair₂ {s₁ s₂ : Nat} (t₁ t₂ : Task) (h : s₁ < s₂) :
    zmin [(s₂, t₂), (s₁, t₁)] = some (s₁, t₁) := by
  simp [zmin, Nat.not_le.2 h]

lemma dequeueFormatacao_eq (st : RedisState) (now s : Nat) (t : Task)
    (h : zmin st.queue = some (s, t)) :
    dequeueFormatacao true now st =
      (some t, ⟨zrem st.queue t,
        setKey st.tasks ("task:" ++ t.id) ⟨"processing", none, some now, none, none, none⟩ 3600 now⟩) := by
  simp [dequeueFormatacao, h]

lemma redisGet_setKey_live (m : List (String × TaskStatus × Nat)) (k : String)
    (v : TaskStatus) (ex now t : Nat) (h : t < now + ex * 1000) :
    redisGet (setKey m k v ex now) k t = some v := by
  simp [redisGet, setKey, List.find?_cons_of_pos, h]

lemma redisGet_setKey_expired (m : List (String × TaskStatus × Nat)) (k : String)
    (v : TaskStatus) (ex now t : Nat) (h : now + ex * 1000 ≤ t) :
    redisGet (setKey m k v ex now) k t = none := by
  simp [redisGet, setKey, List.find?_cons_of_pos, Nat.not_lt.2 h]

/-- C10: with the Redis client unavailable, `getTaskStatus` returns the
synthetic record `{status: 'unknown'}` — a value outside the status set
`{queued, processing, success, failed, not_found}` and distinct from the
`{status: 'not_found'}` record returned when the key is absent (here: a
store with an empty key space) — rather than raising an error (the
function is total and never throws). -/
theorem getTaskStatus_unknown_on_unavailable (taskId : String) (now : Nat)
    (st : RedisState) :
    getTaskStatus false taskId now st = { status := "unknown" } ∧
    getTaskStatus true taskId now ⟨st.queue, []⟩ = { status := "not_found" } ∧
    getTaskStatus false taskId now st ≠ getTaskStatus true taskId now ⟨st.queue, []⟩ ∧
    "unknown" ∉ ["queued", "processing", "success", "failed", "not_found"] := by
  refine ⟨rfl, by simp [getTaskStatus, redisGet], by simp [getTaskStatus, redisGet], by decide⟩

/-- C4 counterexample: with the backing store unconfigured (`hasClient =
false`) and a queue that actually holds one pending task,
`dequeueFormatacao` returns `null` and `getQueueSize` returns `0` —
exactly the signals produced by a reachable empty queue — so the
backend-unavailable condition is reported as an empty queue, contrary to
the claim. -/
theorem backend_down_masked_as_empty :
    (dequeueFormatacao false 0 ⟨[(1000005, sampleTask "a1" 1 5 0 3)], []⟩).1 = none ∧
    getQueueSize false ⟨[(1000005, sampleTask "a1" 1 5 0 3)], []⟩ = 0 ∧
    (dequeueFormatacao true 0 ⟨[], []⟩).1 = none ∧
    getQueueSize true ⟨[], []⟩ = 0 := by
  exact ⟨rfl, rfl, rfl, rfl⟩

/-- C4 amended: when the backing store is unreachable or unconfigured,
`enqueueFormatacao` and `requeueFormatacao` fail fast with the
distinguishable error `'Redis não disponível'`, but `dequeueFormatacao`
returns the empty signal (`null`) leaving the state untouched,
`getQueueSize` returns `0`, and `getTaskStatus` returns a synthetic
`'unknown'` record: dequeue and size report the backend-unavailable
condition exactly as an empty queue. -/
theorem backend_down_fail_fast_partial (jobId dId eJ dB nF taskId : String)
    (p now : Nat) (t : Task) (st : RedisState) :
    enqueueFormatacao false jobId dId eJ dB nF p now st = .error "Redis não disponível" ∧
    requeueFormatacao false t now st = .error "Redis não disponível" ∧
    dequeueFormatacao false now st = (none, st) ∧
    getQueueSize false st = 0 ∧
    getTaskStatus false taskId now st = { status := "unknown" } := by
  exact ⟨rfl, rfl, rfl, rfl, rfl⟩

/-- C2: the two Redis calls inside `dequeueFormatacao` — `zrange` at line
87 and `zrem` at line 94 — are separate awaited requests, so two
concurrent callers may both run their read phase before either runs its
removal phase.  Under that schedule, against a store holding a single
task, both callers return that same task: dequeue as written is not
atomic and at-most-once delivery fails. -/
theorem dequeue_race_duplicate_delivery :
    getQueueSize true ⟨[(1000005, sampleTask "c1" 1 5 0 3)], []⟩ = 1 ∧
    (dequeueRace 6 ⟨[(1000005, sampleTask "c1" 1 5 0 3)], []⟩).1 = some (sampleTask "c1" 1 5 0 3) ∧
    (dequeueRace 6 ⟨[(1000005, sampleTask "c1" 1 5 0 3)], []⟩).2.1 = some (sampleTask "c1" 1 5 0 3) := by
  exact ⟨rfl, rfl, rfl⟩

/-- C1 counterexample: task `a1` has priority 1 and task `b1` priority 2,
yet because the weight constant 1000000 is smaller than the spread of
`Date.now()` timestamps, `a1` enqueued 5000000 ms after `b1` gets score
6000000 > 2000000, and `dequeueFormatacao` returns the lower-priority
`b1` first: `priority(A) < priority(B)` does not imply
`score(A) < score(B)` over the expected timestamp range. -/
theorem priority_order_counterexample :
    (sampleTask "a1" 1 5000000 0 3).priority < (sampleTask "b1" 2 0 0 3).priority ∧
    formatacaoScore 2 0 < formatacaoScore 1 5000000 ∧
    (dequeueFormatacao true 5000001
      ⟨[(formatacaoScore 1 5000000, sampleTask "a1" 1 5000000 0 3),
        (formatacaoScore 2 0, sampleTask "b1" 2 0 0 3)], []⟩).1
      = some (sampleTask "b1" 2 0 0 3) := by
  exact ⟨by norm_num [sampleTask], by norm_num [formatacaoScore], rfl⟩

/-- C1 amended: the ordering guarantee holds only within a bounded
timestamp window: if `priority(A) < priority(B)` and
`createdAt(A) < createdAt(B) + (priority(B) - priority(A)) * 1000000`
(in particular whenever both tasks are created within one 1000000 ms
window), then `score(A) < score(B)` and `dequeueFormatacao` returns A
strictly before B regardless of enqueue order. -/
theorem priority_order_bounded_window (A B : Task) (ts : List (String × TaskStatus × Nat))
    (now : Nat) (hp : A.priority < B.priority)
    (ht : A.createdAt < B.createdAt + (B.priority - A.priority) * 1000000) :
    formatacaoScore A.priority A.createdAt < formatacaoScore B.priority B.createdAt ∧
    (dequeueFormatacao true now
      ⟨[(formatacaoScore B.priority B.createdAt, B),
        (formatacaoScore A.priority A.createdAt, A)], ts⟩).1 = some A := by
  have hs : formatacaoScore A.priority A.createdAt < formatacaoScore B.priority B.createdAt := by
    unfold formatacaoScore
    omega
  refine ⟨hs, ?_⟩
  rw [dequeueFormatacao_eq _ _ _ A (zmin_pair₂ A B hs)]

/-- C1 amended, instantiated: priority 1 at timestamp 1700000000000 beats
priority 2 at timestamp 1700000000500. -/
theorem priority_order_bounded_window_witness :
    formatacaoScore 1 1700000000000 < formatacaoScore 2 1700000000500 ∧
    (dequeueFormatacao true 1700000000600
      ⟨[(formatacaoScore 2 1700000000500, sampleTask "b1" 2 1700000000500 0 3),
        (formatacaoScore 1 1700000000000, sampleTask "a1" 1 1700000000000 0 3)], []⟩).1
      = some (sampleTask "a1" 1 1700000000000 0 3) := by
  have h := priority_order_bounded_window (sampleTask "a1" 1 1700000000000 0 3)
    (sampleTask "b1" 2 1700000000500 0 3) [] 1700000000600 (by norm_num [sampleTask])
    (by norm_num [sampleTask])
  simpa [sampleTask] using h

/-- C5: `enqueueFormatacao` with no reachable backend fails with the
distinguishable error `'Redis não disponível'` (it returns no task id);
with a reachable backend it inserts the built task at score
`priority * 1000000 + now`, writes a `queued` status record readable
until — and only until — its 3600-second expiry, and returns the job id. -/
theorem enqueueFormatacao_spec (jobId dId eJ dB nF : String) (p now : Nat)
    (st : RedisState) :
    enqueueFormatacao false jobId dId eJ dB nF p now st = .error "Redis não disponível" ∧
    ∃ st', enqueueFormatacao true jobId dId eJ dB nF p now st = .ok (jobId, st') ∧
      (formatacaoScore p now,
        (⟨jobId, "formatacao", dId, eJ, dB, nF, p, now, 0, 3⟩ : Task)) ∈ st'.queue ∧
      getTaskStatus true jobId now st' = { status := "queued", createdAt := some now } ∧
      getTaskStatus true jobId (now + 3600 * 1000) st' = { status := "not_found" } := by
  refine ⟨rfl, ⟨⟨zadd st.queue (formatacaoScore p now) ⟨jobId, "formatacao", dId, eJ, dB, nF, p, now, 0, 3⟩,
    setKey st.tasks ("task:" ++ jobId) ⟨"queued", some now, none, none, none, none⟩ 3600 now⟩,
    rfl, zadd_self_mem _ _ _, ?_, ?_⟩⟩
  · have h := redisGet_setKey_live st.tasks ("task:" ++ jobId)
      ⟨"queued", some now, none, none, none, none⟩ 3600 now now (by omega)
    simp [getTaskStatus, h]
  · have h := redisGet_setKey_expired st.tasks ("task:" ++ jobId)
      ⟨"queued", some now, none, none, none, none⟩ 3600 now (now + 3600 * 1000) (by omega)
    simp [getTaskStatus, h]

/-- C8: for two tasks of equal priority, the score is strictly monotone in
`createdAt`, and against a store holding both, `dequeueFormatacao`
returns the earlier-enqueued task first and the later one on the next
call (FIFO within a priority class). -/
theorem fifo_within_priority (B₁ B₂ : Task) (ts : List (String × TaskStatus × Nat))
    (now now' : Nat) (hp : B₁.priority = B₂.priority)
    (ht : B₁.createdAt < B₂.createdAt) :
    formatacaoScore B₁.priority B₁.createdAt < formatacaoScore B₂.priority B₂.createdAt ∧
    (dequeueFormatacao true now
      ⟨[(formatacaoScore B₁.priority B₁.createdAt, B₁),
        (formatacaoScore B₂.priority B₂.createdAt, B₂)], ts⟩).1 = some B₁ ∧
    (dequeueFormatacao true now'
      (dequeueFormatacao true now
        ⟨[(formatacaoScore B₁.priority B₁.createdAt, B₁),
          (formatacaoScore B₂.priority B₂.createdAt, B₂)], ts⟩).2).1 = some B₂ := by
  have hne : B₁ ≠ B₂ := by
    intro h
    rw [h] at ht
    exact lt_irrefl _ ht
  have hs : formatacaoScore B₁.priority B₁.createdAt < formatacaoScore B₂.priority B₂.createdAt := by
    unfold formatacaoScore
    rw [hp]
    omega
  have h₁ := dequeueFormatacao_eq
    ⟨[(formatacaoScore B₁.priority B₁.createdAt, B₁),
      (formatacaoScore B₂.priority B₂.createdAt, B₂)], ts⟩ now _ B₁
    (zmin_pair₁ B₁ B₂ (Nat.le_of_lt hs))
  have hzr : zrem [(formatacaoScore B₁.priority B₁.createdAt, B₁),
      (formatacaoScore B₂.priority B₂.createdAt, B₂)] B₁ =
      [(formatacaoScore B₂.priority B₂.createdAt, B₂)] := by
    simp [zrem, Ne.symm hne]
  refine ⟨hs, by rw [h₁], ?_⟩
  rw [h₁]
  have h₂ := dequeueFormatacao_eq
    ⟨zrem [(formatacaoScore B₁.priority B₁.createdAt, B₁),
        (formatacaoScore B₂.priority B₂.createdAt, B₂)] B₁,
      setKey ts ("task:" ++ B₁.id) ⟨"processing", none, some now, none, none, none⟩ 3600 now⟩
    now' _ B₂ (by rw [show (⟨zrem _ B₁, _⟩ : RedisState).queue = _ from congrArg _ rfl]; rw [hzr]; rfl)
  rw [h₂]

/-- C8 instantiated: two priority-5 tasks created at 100 and 200 come out
in creation order. -/
theorem fifo_within_priority_witness :
    (dequeueFormatacao true 300
      ⟨[(formatacaoScore 5 100, sampleTask "b1" 5 100 0 3),
        (formatacaoScore 5 200, sampleTask "b2" 5 200 0 3)], []⟩).1
      = some (sampleTask "b1" 5 100 0 3) ∧
    (dequeueFormatacao true 400
      (dequeueFormatacao true 300
        ⟨[(formatacaoScore 5 100, sampleTask "b1" 5 100 0 3),
          (formatacaoScore 5 200, sampleTask "b2" 5 200 0 3)], []⟩).2).1
      = some (sampleTask "b2" 5 200 0 3) := by
  have h := fifo_within_priority (sampleTask "b1" 5 100 0 3) (sampleTask "b2" 5 200 0 3)
    [] 300 400 (by simp [sampleTask]) (by simp [sampleTask])
  exact ⟨by simpa [sampleTask] using h.2.1, by simpa [sampleTask] using h.2.2⟩
/-- C3: `requeueFormatacao` increments `attempts`; when the incremented
count reaches `maxAttempts` it records (via `saveTaskResult`) a terminal
`failed` status carrying the max-attempts error message and returns
`false` without touching the queue; otherwise it reinserts the task,
with `attempts` incremented, at the degraded score
`(priority + attempts) * 1000000 + now`, and returns `true`. -/
theorem requeueFormatacao_spec (t : Task) (st : RedisState) (now : Nat) :
    (t.maxAttempts ≤ t.attempts + 1 →
      requeueFormatacao true t now st =
        .ok (false, saveTaskResult true t.id "failed" none (some "Máximo de tentativas excedido") now st) ∧
      (saveTaskResult true t.id "failed" none (some "Máximo de tentativas excedido") now st).queue = st.queue ∧
      getTaskStatus true t.id now
          (saveTaskResult true t.id "failed" none (some "Máximo de tentativas excedido") now st) =
        { status := "failed", completedAt := some now, error := some "Máximo de tentativas excedido" }) ∧
    (t.attempts + 1 < t.maxAttempts →
      requeueFormatacao true t now st =
        .ok (true, ⟨zadd st.queue ((t.priority + (t.attempts + 1)) * 1000000 + now) { t with attempts := t.attempts + 1 }, st.tasks⟩) ∧
      ((t.priority + (t.attempts + 1)) * 1000000 + now, ({ t with attempts := t.attempts + 1 } : Task)) ∈
        zadd st.queue ((t.priority + (t.attempts + 1)) * 1000000 + now) { t with attempts := t.attempts + 1 }) := by
  constructor
  · intro h
    refine ⟨by simp [requeueFormatacao, h], rfl, ?_⟩
    have hl := redisGet_setKey_live st.tasks ("task:" ++ t.id)
      ⟨"failed", none, none, some now, none, some "Máximo de tentativas excedido"⟩ 3600 now now (by omega)
    simp [saveTaskResult, getTaskStatus, hl]
  · intro h
    refine ⟨by simp [requeueFormatacao, Nat.not_le.2 h], zadd_self_mem _ _ _⟩

/-- C3 instantiated (retry-exhaustion scenario): a task with
`maxAttempts = 3` and `attempts = 0` is requeued successfully twice
(returning `true` with `attempts` at 1, then 2), the third call returns
`false`, and `getTaskStatus` then reports a `failed` status. -/
theorem requeueFormatacao_spec_witness :
    (requeueFormatacao true (sampleTask "c1" 5 0 0 3) 10 ⟨[], []⟩).toOption.map Prod.fst = some true ∧
    (requeueFormatacao true (sampleTask "c1" 5 0 1 3) 11 ⟨[], []⟩).toOption.map Prod.fst = some true ∧
    requeueFormatacao true (sampleTask "c1" 5 0 2 3) 12 ⟨[], []⟩ =
      .ok (false, saveTaskResult true "c1" "failed" none (some "Máximo de tentativas excedido") 12 ⟨[], []⟩) ∧
    (getTaskStatus true "c1" 12
      (saveTaskResult true "c1" "failed" none (some "Máximo de tentativas excedido") 12 ⟨[], []⟩)).status = "failed" := by
  obtain ⟨h1, _, h3⟩ := (requeueFormatacao_spec (sampleTask "c1" 5 0 2 3) ⟨[], []⟩ 12).1 (by decide)
  refine ⟨rfl, rfl, ?_, ?_⟩
  · simpa [sampleTask] using h1
  · have := congrArg TaskStatus.status h3
    simpa [sampleTask] using this
lemma retryGo_allFail_calls {E A : Type} (fn : Nat → Except E A) (err : Nat → E)
    (d : Nat) (h : ∀ k, fn k = .error (err k)) :
    ∀ (remaining attempt : Nat) (le : Option E),
      (retryGo fn d attempt remaining le).calls = remaining := by
  intro remaining
  induction remaining with
  | zero => intro attempt le; simp [retryGo]
  | succ r ih =>
    intro attempt le
    simp only [retryGo, h attempt]
    split <;> simp [ih]

lemma retryGo_allFail_outcome {E A : Type} (fn : Nat → Except E A) (err : Nat → E)
    (d : Nat) (h : ∀ k, fn k = .error (err k)) :
    ∀ (remaining attempt : Nat) (le : Option E), 1 ≤ remaining →
      (retryGo fn d attempt remaining le).outcome = .error (some (err (attempt + remaining - 1))) := by
  intro remaining
  induction remaining with
  | zero => intro attempt le hle; exact absurd hle (by omega)
  | succ r ih =>
    intro attempt le _
    simp only [retryGo, h attempt]
    split
    · rename_i hr
      subst hr
      simp [retryGo]
    · rename_i hr
      have ho := ih (attempt + 1) (some (err attempt)) (by omega)
      show (retryGo fn d (attempt + 1) r (some (err attempt))).outcome = _
      rw [ho]
      have ha : attempt + 1 + r - 1 = attempt + (r + 1) - 1 := by omega
      rw [ha]

lemma retryGo_allFail_delays {E A : Type} (fn : Nat → Except E A) (err : Nat → E)
    (d : Nat) (h : ∀ k, fn k = .error (err k)) :
    ∀ (remaining attempt : Nat) (le : Option E),
      (retryGo fn d attempt remaining le).delays =
        (List.range (remaining - 1)).map (fun i => d * (attempt + i)) := by
  intro remaining
  induction remaining with
  | zero => intro attempt le; simp [retryGo]
  | succ r ih =>
    intro attempt le
    simp only [retryGo, h attempt]
    split
    · rename_i hr
      subst hr
      simp [retryGo]
    · rename_i hr
      obtain ⟨s, rfl⟩ := Nat.exists_eq_succ_of_ne_zero hr
      simp only [ih (attempt + 1) (some (err attempt))]
      rw [Nat.succ_sub_one, Nat.succ_sub_one, List.range_succ_eq_map, List.map_cons,
        List.map_map]
      refine congrArg₂ _ (by rw [Nat.add_zero]) ?_
      refine List.map_congr_left (fun i _ => ?_)
      simp only [Function.comp_apply]
      exact congrArg (fun x => d * x) (by omega)

lemma retryGo_success {E A : Type} (fn : Nat → Except E A) (err : Nat → E)
    (d k : Nat) (a : A) (hsucc : fn k = .ok a)
    (hfail : ∀ j, 1 ≤ j → j < k → fn j = .error (err j)) :
    ∀ (remaining attempt : Nat) (le : Option E),
      1 ≤ attempt → attempt ≤ k → k < attempt + remaining →
      (retryGo fn d attempt remaining le).outcome = .ok a ∧
      (retryGo fn d attempt remaining le).calls = k + 1 - attempt := by
  intro remaining
  induction remaining with
  | zero => intro attempt le h1 h2 h3; exact absurd h3 (by omega)
  | succ r ih =>
    intro attempt le h1 h2 h3
    by_cases hak : attempt = k
    · subst hak
      simp only [retryGo, hsucc]
      exact ⟨trivial, by omega⟩
    · have hlt : attempt < k := lt_of_le_of_ne h2 hak
      have hf := hfail attempt h1 hlt
      obtain ⟨iho, ihc⟩ := ih (attempt + 1) (some (err attempt)) (by omega) (by omega) (by omega)
      simp only [retryGo, hf]
      split <;> exact ⟨iho, by
        show (retryGo fn d (attempt + 1) r (some (err attempt))).calls + 1 = k + 1 - attempt
        omega⟩

/-- C6: the waits of `executeWithRetry` grow linearly in the attempt
index: for an operation failing on every attempt, exactly
`maxRetries - 1` waits occur, the k-th (1-indexed) being
`delayMs * k` — and no wait follows the last attempt. -/
theorem executeWithRetry_linear_delays {E A : Type} (fn : Nat → Except E A)
    (err : Nat → E) (m d : Nat) (h : ∀ k, fn k = .error (err k)) :
    (executeWithRetry fn m d).delays = (List.range (m - 1)).map (fun i => d * (i + 1)) := by
  rw [executeWithRetry, retryGo_allFail_delays fn err d h m 1 none]
  exact List.map_congr_left (fun i _ => by ring_nf)

/-- C6 instantiated: three all-failing attempts with base delay 2000 wait
exactly twice, 2000 ms then 4000 ms. -/
theorem executeWithRetry_linear_delays_witness :
    (executeWithRetry (fun _ => (.error 7 : Except Nat Nat)) 3 2000).delays = [2000, 4000] := by
  rw [executeWithRetry_linear_delays (fun _ => (.error 7 : Except Nat Nat)) (fun _ => 7)
    3 2000 (fun _ => rfl)]
  rfl

/-- C7: for an operation failing on every attempt, `executeWithRetry`
invokes it exactly `maxRetries` times and fails with the error captured
on the last attempt; for an operation first succeeding on attempt `k ≤
maxRetries`, it returns that result after exactly `k` invocations. -/
theorem executeWithRetry_attempt_count :
    (∀ (E A : Type) (fn : Nat → Except E A) (err : Nat → E) (m d : Nat),
      1 ≤ m → (∀ k, fn k = .error (err k)) →
      (executeWithRetry fn m d).calls = m ∧
      (executeWithRetry fn m d).outcome = .error (some (err m))) ∧
    (∀ (E A : Type) (fn : Nat → Except E A) (err : Nat → E) (m d k : Nat) (a : A),
      1 ≤ k → k ≤ m → (∀ j, 1 ≤ j → j < k → fn j = .error (err j)) → fn k = .ok a →
      (executeWithRetry fn m d).calls = k ∧
      (executeWithRetry fn m d).outcome = .ok a) := by
  constructor
  · intro E A fn err m d hm h
    refine ⟨retryGo_allFail_calls fn err d h m 1 none, ?_⟩
    rw [executeWithRetry, retryGo_allFail_outcome fn err d h m 1 none hm]
    have ha : 1 + m - 1 = m := by omega
    rw [ha]
  · intro E A fn err m d k a hk hkm hfail hsucc
    obtain ⟨ho, hc⟩ := retryGo_success fn err d k a hsucc hfail m 1 none (by omega) hk (by omega)
    exact ⟨by rw [executeWithRetry, hc]; omega, ho⟩

/-- C7 instantiated: an always-failing operation run with `maxRetries = 3`
is invoked 3 times and fails with the last error; an operation
succeeding on its 2nd attempt is invoked exactly twice and returns its
result. -/
theorem executeWithRetry_attempt_count_witness :
    (executeWithRetry (fun _ => (.error 7 : Except Nat Nat)) 3 2000).calls = 3 ∧
    (executeWithRetry (fun _ => (.error 7 : Except Nat Nat)) 3 2000).outcome = .error (some 7) ∧
    (executeWithRetry (fun k => if k = 2 then (.ok 42 : Except Nat Nat) else .error k) 3 2000).calls = 2 ∧
    (executeWithRetry (fun k => if k = 2 then (.ok 42 : Except Nat Nat) else .error k) 3 2000).outcome = .ok 42 := by
  obtain ⟨h1, h2⟩ := executeWithRetry_attempt_count.1 Nat Nat (fun _ => .error 7) (fun _ => 7)
    3 2000 (by omega) (fun _ => rfl)
  obtain ⟨h3, h4⟩ := executeWithRetry_attempt_count.2 Nat Nat
    (fun k => if k = 2 then (.ok 42 : Except Nat Nat) else .error k) (fun j => j) 3 2000 2 42
    (by omega) (by omega)
    (fun j hj1 hj2 => by
      have : j = 1 := by omega
      subst this
      rfl)
    rfl
  exact ⟨h1, h2, h3, h4⟩
/-- C9 counterexample: `requeueFormatacao` on its reinsertion path writes
no status record.  Starting from a store with an empty key space, a
requeue of a fresh task (attempts 0 of 3) returns `true` and puts the
task back in the queue (size 1), yet the key space stays empty and
`getTaskStatus` reports `not_found`: the reinserted task is present in
the Task Store without any `queued`/`processing` status record, so not
every enqueue/dequeue/requeue writes a fresh record. -/
theorem requeue_reinsert_no_status_write :
    (requeueFormatacao true (sampleTask "c1" 5 100 0 3) 200 ⟨[], []⟩).toOption.map
        (fun r => (r.1, r.2.queue.length, r.2.tasks, getTaskStatus true "c1" 200 r.2)) =
      some (true, 1, [], { status := "not_found" }) := by
  rfl

/-- C9 amended: `enqueueFormatacao` writes a fresh `queued` record and
`dequeueFormatacao` (when it returns a task) a fresh `processing`
record, but `requeueFormatacao` writes a record only on its
terminal-failure path; on the reinsertion path it leaves the key space
untouched, so a reinserted task keeps its previous record — whose expiry
is not refreshed — and can outlive it. -/
theorem status_record_writes (jobId dId eJ dB nF : String) (p now s : Nat)
    (t : Task) (st : RedisState) :
    (enqueueFormatacao true jobId dId eJ dB nF p now st).toOption.map
        (fun r => getTaskStatus true jobId now r.2) =
      some { status := "queued", createdAt := some now } ∧
    (zmin st.queue = some (s, t) →
      getTaskStatus true t.id now (dequeueFormatacao true now st).2 =
        { status := "processing", startedAt := some now }) ∧
    (t.maxAttempts ≤ t.attempts + 1 →
      (requeueFormatacao true t now st).toOption.map
          (fun r => (getTaskStatus true t.id now r.2).status) = some "failed") ∧
    (t.attempts + 1 < t.maxAttempts →
      (requeueFormatacao true t now st).toOption.map (fun r => r.2.tasks) = some st.tasks) := by
  refine ⟨?_, ?_, ?_, ?_⟩
  · have hl := redisGet_setKey_live st.tasks ("task:" ++ jobId)
      ⟨"queued", some now, none, none, none, none⟩ 3600 now now (by omega)
    simp [enqueueFormatacao, Except.toOption, getTaskStatus, hl]
  · intro h
    rw [dequeueFormatacao_eq st now s t h]
    have hl := redisGet_setKey_live st.tasks ("task:" ++ t.id)
      ⟨"processing", none, some now, none, none, none⟩ 3600 now now (by omega)
    simp [getTaskStatus, hl]
  · intro h
    have hl := redisGet_setKey_live st.tasks ("task:" ++ t.id)
      ⟨"failed", none, none, some now, none, some "Máximo de tentativas excedido"⟩ 3600 now now (by omega)
    simp [requeueFormatacao, h, Except.toOption, saveTaskResult, getTaskStatus, hl]
  · intro h
    simp [requeueFormatacao, Nat.not_le.2 h, Except.toOption]

/-- C9 amended, instantiated: a dequeue against a one-task store writes a
`processing` record; a terminal requeue (attempts 2 of 3) writes a
`failed` record; a non-terminal requeue (attempts 0 of 3) leaves the key
space unchanged. -/
theorem status_record_writes_witness :
    getTaskStatus true "c1" 9
        (dequeueFormatacao true 9 ⟨[(5000000, sampleTask "c1" 5 0 0 3)], []⟩).2 =
      { status := "processing", startedAt := some 9 } ∧
    (requeueFormatacao true (sampleTask "c1" 5 0 2 3) 12 ⟨[], []⟩).toOption.map
        (fun r => (getTaskStatus true "c1" 12 r.2).status) = some "failed" ∧
    (requeueFormatacao true (sampleTask "c2" 5 0 0 3) 13 ⟨[], []⟩).toOption.map
        (fun r => r.2.tasks) = some [] := by
  refine ⟨?_, ?_, ?_⟩
  · have h := (status_record_writes "j" "d" "e" "b" "n" 5 9 5000000
      (sampleTask "c1" 5 0 0 3) ⟨[(5000000, sampleTask "c1" 5 0 0 3)], []⟩).2.1 rfl
    simpa [sampleTask] using h
  · have h := (status_record_writes "j" "d" "e" "b" "n" 5 12 0
      (sampleTask "c1" 5 0 2 3) ⟨[], []⟩).2.2.1 (by decide)
    simpa [sampleTask] using h
  · have h := (status_record_writes "j" "d" "e" "b" "n" 5 13 0
      (sampleTask "c2" 5 0 0 3) ⟨[], []⟩).2.2.2 (by decide)
    simpa [sampleTask] using h
end EstacaoMapa
